import Mathlib

/-!
Verification of the Cocoro Air sensor platform
(`custom_components/cocoro_air/sensor.py`).

The platform wraps an external API client in eight Home Assistant
entities.  Each entity holds a reference to the shared API client, a
unique identifier derived from the device id, the device info, and a
nullable displayed value.  A refresh (`async_update`) calls the API's
`update()` and `get_sensor_data()` inside a `try`/`except` block that
catches every exception, reads the entity's one field out of the
resulting mapping, and writes the (possibly scaled) value into the
entity; any exception is logged and suppressed, leaving the entity
unchanged.

Embedding choices:
* Python numbers are modelled as rationals (`ℚ`); `round` with no
  `ndigits` argument is Python's round-half-to-even, modelled exactly by
  `roundHalfEven`.
* The snapshot mapping produced by `get_sensor_data` is modelled by
  `SensorData`, one field per key.  A field of type
  `Option (Option ℚ)` distinguishes an absent key (`none`, whose lookup
  raises `KeyError` in Python) from a key present with value `None`
  (`some none`) and from a key present with a number (`some (some v)`).
* The two fallible calls of one refresh cycle, `self._api.update()` and
  `self._api.get_sensor_data(raw_data)`, are combined into a single
  argument `fetch : Except PyException SensorData`: `Except.error e`
  means one of the two calls raised `e`, `Except.ok data` means both
  succeeded and produced the mapping `data`.
* Each Python entity class becomes a structure holding its instance
  attributes, a constructor `init` translating `__init__`, and a pure
  state-transformer `async_update` translating the method of the same
  name.
-/

namespace CocoroAir

/-- Round a rational to the nearest integer, ties to the even integer.
This is the semantics of Python's builtin `round(x)` on an exact value:
below-half fractional parts round down, above-half round up, and an
exact half goes to whichever neighbour is even. -/
def roundHalfEven (q : ℚ) : ℤ :=
  if q - (⌊q⌋ : ℚ) < 1/2 then ⌊q⌋
  else if (1 : ℚ)/2 < q - (⌊q⌋ : ℚ) then ⌊q⌋ + 1
  else if ⌊q⌋ % 2 = 0 then ⌊q⌋ else ⌊q⌋ + 1

/-- Device-registry description returned by the API client's
`device_info` attribute; its contents are irrelevant to this layer, so
it is modelled as a wrapped payload. -/
structure DeviceInfo where
  payload : String
deriving DecidableEq, Repr

/-- The external API client object (`cocoro_air_api`).  Only the two
attributes read at construction time are data; the behaviour of its
`update()` / `get_sensor_data()` calls during one refresh cycle is
passed to `async_update` as an `Except` value. -/
structure ApiClient where
  device_id : String
  device_info : DeviceInfo
deriving DecidableEq, Repr

/-- A raised Python exception, carrying the message that the `except`
branch logs. -/
structure PyException where
  msg : String
deriving DecidableEq, Repr

/-- The mapping returned by `get_sensor_data`.  For each key, `none`
means the key is absent from the dict (looking it up raises
`KeyError`), `some none` means the key is present with value `None`,
and `some (some v)` means the key is present with value `v`. -/
structure SensorData where
  temperature : Option (Option ℚ)
  humidity : Option (Option ℚ)
  water_tank : Option (Option Bool)
  pm25 : Option (Option ℚ)
  cleaned_air_volume : Option (Option ℚ)
  odor_level : Option (Option ℚ)
  dust_level : Option (Option ℚ)
  cleanliness_level : Option (Option ℚ)
deriving DecidableEq, Repr

/-- Instance state of `CocoroAirTemperatureSensor`. -/
structure CocoroAirTemperatureSensor where
  api : ApiClient
  unique_id : String
  device_info : DeviceInfo
  native_value : Option ℚ
deriving DecidableEq, Repr

/-- `CocoroAirTemperatureSensor.__init__`. -/
def CocoroAirTemperatureSensor.init (api : ApiClient) : CocoroAirTemperatureSensor :=
  { api := api
    unique_id := api.device_id ++ "_temperature"
    device_info := api.device_info
    native_value := none }

/-- `CocoroAirTemperatureSensor.async_update`: on a raised exception the
`except` branch logs and leaves the state alone; on success the
`temperature` key is read (a `KeyError` on an absent key is caught by
the same `except`) and stored unscaled. -/
def CocoroAirTemperatureSensor.async_update (s : CocoroAirTemperatureSensor)
    (fetch : Except PyException SensorData) : CocoroAirTemperatureSensor :=
  match fetch with
  | .error _ => s
  | .ok data =>
    match data.temperature with
    | none => s
    | some v => { s with native_value := v }

/-- Instance state of `CocoroAirHumiditySensor`. -/
structure CocoroAirHumiditySensor where
  api : ApiClient
  unique_id : String
  device_info : DeviceInfo
  native_value : Option ℚ
deriving DecidableEq, Repr

/-- `CocoroAirHumiditySensor.__init__`. -/
def CocoroAirHumiditySensor.init (api : ApiClient) : CocoroAirHumiditySensor :=
  { api := api
    unique_id := api.device_id ++ "_humidity"
    device_info := api.device_info
    native_value := none }

/-- `CocoroAirHumiditySensor.async_update`: stores `data['humidity']`
unscaled; every exception is caught and logged. -/
def CocoroAirHumiditySensor.async_update (s : CocoroAirHumiditySensor)
    (fetch : Except PyException SensorData) : CocoroAirHumiditySensor :=
  match fetch with
  | .error _ => s
  | .ok data =>
    match data.humidity with
    | none => s
    | some v => { s with native_value := v }

/-- Instance state of `CocoroAirWaterTankSensor`, a binary sensor: its
displayed value is the `_attr_is_on` flag. -/
structure CocoroAirWaterTankSensor where
  api : ApiClient
  unique_id : String
  device_info : DeviceInfo
  is_on : Option Bool
deriving DecidableEq, Repr

/-- `CocoroAirWaterTankSensor.__init__`. -/
def CocoroAirWaterTankSensor.init (api : ApiClient) : CocoroAirWaterTankSensor :=
  { api := api
    unique_id := api.device_id ++ "_water_tank"
    device_info := api.device_info
    is_on := none }

/-- `CocoroAirWaterTankSensor.async_update`: stores `data['water_tank']`
unscaled; every exception is caught and logged. -/
def CocoroAirWaterTankSensor.async_update (s : CocoroAirWaterTankSensor)
    (fetch : Except PyException SensorData) : CocoroAirWaterTankSensor :=
  match fetch with
  | .error _ => s
  | .ok data =>
    match data.water_tank with
    | none => s
    | some v => { s with is_on := v }

/-- Instance state of `CocoroAirPM25Sensor`. -/
structure CocoroAirPM25Sensor where
  api : ApiClient
  unique_id : String
  device_info : DeviceInfo
  native_value : Option ℚ
deriving DecidableEq, Repr

/-- `CocoroAirPM25Sensor.__init__`. -/
def CocoroAirPM25Sensor.init (api : ApiClient) : CocoroAirPM25Sensor :=
  { api := api
    unique_id := api.device_id ++ "_pm25"
    device_info := api.device_info
    native_value := none }

/-- `CocoroAirPM25Sensor.async_update`: stores `data['pm25']` unscaled;
every exception is caught and logged. -/
def CocoroAirPM25Sensor.async_update (s : CocoroAirPM25Sensor)
    (fetch : Except PyException SensorData) : CocoroAirPM25Sensor :=
  match fetch with
  | .error _ => s
  | .ok data =>
    match data.pm25 with
    | none => s
    | some v => { s with native_value := v }

/-- Instance state of `CocoroAirCleanedAirVolumeSensor`. -/
structure CocoroAirCleanedAirVolumeSensor where
  api : ApiClient
  unique_id : String
  device_info : DeviceInfo
  native_value : Option ℚ
deriving DecidableEq, Repr

/-- `CocoroAirCleanedAirVolumeSensor.__init__`. -/
def CocoroAirCleanedAirVolumeSensor.init (api : ApiClient) :
    CocoroAirCleanedAirVolumeSensor :=
  { api := api
    unique_id := api.device_id ++ "_cleaned_air_volume"
    device_info := api.device_info
    native_value := none }

/-- `CocoroAirCleanedAirVolumeSensor.async_update`: stores
`data['cleaned_air_volume']` unscaled; every exception is caught and
logged. -/
def CocoroAirCleanedAirVolumeSensor.async_update (s : CocoroAirCleanedAirVolumeSensor)
    (fetch : Except PyException SensorData) : CocoroAirCleanedAirVolumeSensor :=
  match fetch with
  | .error _ => s
  | .ok data =>
    match data.cleaned_air_volume with
    | none => s
    | some v => { s with native_value := v }

/-- Instance state of `CocoroAirOdorLevelSensor`. -/
structure CocoroAirOdorLevelSensor where
  api : ApiClient
  unique_id : String
  device_info : DeviceInfo
  native_value : Option ℚ
deriving DecidableEq, Repr

/-- `CocoroAirOdorLevelSensor.__init__`. -/
def CocoroAirOdorLevelSensor.init (api : ApiClient) : CocoroAirOdorLevelSensor :=
  { api := api
    unique_id := api.device_id ++ "_odor_level"
    device_info := api.device_info
    native_value := none }

/-- `CocoroAirOdorLevelSensor.async_update`: reads
`raw_value = data['odor_level']`; if it is not `None` stores
`round(raw_value / 33)`, otherwise stores `None`; every exception is
caught and logged. -/
def CocoroAirOdorLevelSensor.async_update (s : CocoroAirOdorLevelSensor)
    (fetch : Except PyException SensorData) : CocoroAirOdorLevelSensor :=
  match fetch with
  | .error _ => s
  | .ok data =>
    match data.odor_level with
    | none => s
    | some raw_value =>
      match raw_value with
      | some v => { s with native_value := some ((roundHalfEven (v / 33) : ℤ) : ℚ) }
      | none => { s with native_value := none }

/-- Instance state of `CocoroAirDustLevelSensor`. -/
structure CocoroAirDustLevelSensor where
  api : ApiClient
  unique_id : String
  device_info : DeviceInfo
  native_value : Option ℚ
deriving DecidableEq, Repr

/-- `CocoroAirDustLevelSensor.__init__`. -/
def CocoroAirDustLevelSensor.init (api : ApiClient) : CocoroAirDustLevelSensor :=
  { api := api
    unique_id := api.device_id ++ "_dust_level"
    device_info := api.device_info
    native_value := none }

/-- `CocoroAirDustLevelSensor.async_update`: reads
`raw_value = data['dust_level']`; if it is not `None` stores
`round(raw_value / 25)`, otherwise stores `None`; every exception is
caught and logged. -/
def CocoroAirDustLevelSensor.async_update (s : CocoroAirDustLevelSensor)
    (fetch : Except PyException SensorData) : CocoroAirDustLevelSensor :=
  match fetch with
  | .error _ => s
  | .ok data =>
    match data.dust_level with
    | none => s
    | some raw_value =>
      match raw_value with
      | some v => { s with native_value := some ((roundHalfEven (v / 25) : ℤ) : ℚ) }
      | none => { s with native_value := none }

/-- Instance state of `CocoroAirCleanlinessLevelSensor`. -/
structure CocoroAirCleanlinessLevelSensor where
  api : ApiClient
  unique_id : String
  device_info : DeviceInfo
  native_value : Option ℚ
deriving DecidableEq, Repr

/-- `CocoroAirCleanlinessLevelSensor.__init__`. -/
def CocoroAirCleanlinessLevelSensor.init (api : ApiClient) :
    CocoroAirCleanlinessLevelSensor :=
  { api := api
    unique_id := api.device_id ++ "_cleanliness_level"
    device_info := api.device_info
    native_value := none }

/-- `CocoroAirCleanlinessLevelSensor.async_update`: reads
`raw_value = data['cleanliness_level']`; if it is not `None` stores
`round(raw_value / 25)`, otherwise stores `None`; every exception is
caught and logged. -/
def CocoroAirCleanlinessLevelSensor.async_update (s : CocoroAirCleanlinessLevelSensor)
    (fetch : Except PyException SensorData) : CocoroAirCleanlinessLevelSensor :=
  match fetch with
  | .error _ => s
  | .ok data =>
    match data.cleanliness_level with
    | none => s
    | some raw_value =>
      match raw_value with
      | some v => { s with native_value := some ((roundHalfEven (v / 25) : ℤ) : ℚ) }
      | none => { s with native_value := none }

/-- An entity of the platform: the sum of the eight entity classes,
used to type the heterogeneous list handed to `async_add_entities`. -/
inductive Entity where
  | temperature : CocoroAirTemperatureSensor → Entity
  | humidity : CocoroAirHumiditySensor → Entity
  | water_tank : CocoroAirWaterTankSensor → Entity
  | pm25 : CocoroAirPM25Sensor → Entity
  | cleaned_air_volume : CocoroAirCleanedAirVolumeSensor → Entity
  | odor_level : CocoroAirOdorLevelSensor → Entity
  | dust_level : CocoroAirDustLevelSensor → Entity
  | cleanliness_level : CocoroAirCleanlinessLevelSensor → Entity
deriving DecidableEq, Repr

/-- The `_api` attribute of an entity. -/
def Entity.api : Entity → ApiClient
  | .temperature s => s.api
  | .humidity s => s.api
  | .water_tank s => s.api
  | .pm25 s => s.api
  | .cleaned_air_volume s => s.api
  | .odor_level s => s.api
  | .dust_level s => s.api
  | .cleanliness_level s => s.api

/-- The `_attr_unique_id` attribute of an entity. -/
def Entity.unique_id : Entity → String
  | .temperature s => s.unique_id
  | .humidity s => s.unique_id
  | .water_tank s => s.unique_id
  | .pm25 s => s.unique_id
  | .cleaned_air_volume s => s.unique_id
  | .odor_level s => s.unique_id
  | .dust_level s => s.unique_id
  | .cleanliness_level s => s.unique_id

/-- The displayed value of an entity, as the host framework reads it:
`_attr_native_value` for the seven numeric sensors, `_attr_is_on` for
the water-tank binary sensor (booleans shown as 0 / 1). -/
def Entity.displayed : Entity → Option ℚ
  | .temperature s => s.native_value
  | .humidity s => s.native_value
  | .water_tank s => s.is_on.map (fun b => if b then 1 else 0)
  | .pm25 s => s.native_value
  | .cleaned_air_volume s => s.native_value
  | .odor_level s => s.native_value
  | .dust_level s => s.native_value
  | .cleanliness_level s => s.native_value

/-- Dispatch of the host framework's per-entity refresh call to the
entity's own `async_update` method. -/
def Entity.async_update (e : Entity) (fetch : Except PyException SensorData) : Entity :=
  match e with
  | .temperature s => .temperature (s.async_update fetch)
  | .humidity s => .humidity (s.async_update fetch)
  | .water_tank s => .water_tank (s.async_update fetch)
  | .pm25 s => .pm25 (s.async_update fetch)
  | .cleaned_air_volume s => .cleaned_air_volume (s.async_update fetch)
  | .odor_level s => .odor_level (s.async_update fetch)
  | .dust_level s => .dust_level (s.async_update fetch)
  | .cleanliness_level s => .cleanliness_level (s.async_update fetch)

/-- The integration domain imported from the package's `__init__` (the
folder name `cocoro_air`); only used as a registry key here. -/
def DOMAIN : String := "cocoro_air"

/-- A config entry; only its `entry_id` is read by the setup routine. -/
structure ConfigEntry where
  entry_id : String
deriving DecidableEq, Repr

/-- The per-entry store `hass.data[DOMAIN][entry.entry_id]`; the setup
routine reads its `"cocoro_air_api"` slot. -/
structure EntryStore where
  cocoro_air_api : ApiClient
deriving DecidableEq, Repr

/-- The host's process-wide registry `hass.data`, modelled as the
mapping from domain and entry id to the entry store. -/
structure HassData where
  data : String → String → EntryStore

/-- `async_setup_entry`: look the API client up in the host registry,
construct the eight entities from it, and hand the list to the host's
registration callback.  There is no error handling: the callback is
applied unconditionally and its result returned. -/
def async_setup_entry {α : Type} (hass : HassData) (entry : ConfigEntry)
    (async_add_entities : List Entity → α) : α :=
  let cocoro_air_api := (hass.data DOMAIN entry.entry_id).cocoro_air_api
  let entities : List Entity :=
    [ .temperature (CocoroAirTemperatureSensor.init cocoro_air_api),
      .humidity (CocoroAirHumiditySensor.init cocoro_air_api),
      .water_tank (CocoroAirWaterTankSensor.init cocoro_air_api),
      .pm25 (CocoroAirPM25Sensor.init cocoro_air_api),
      .cleaned_air_volume (CocoroAirCleanedAirVolumeSensor.init cocoro_air_api),
      .odor_level (CocoroAirOdorLevelSensor.init cocoro_air_api),
      .dust_level (CocoroAirDustLevelSensor.init cocoro_air_api),
      .cleanliness_level (CocoroAirCleanlinessLevelSensor.init cocoro_air_api) ]
  async_add_entities entities

/-- The entity list that `async_setup_entry` builds from a given API
client, named so that theorems can speak about it. -/
def setupEntities (api : ApiClient) : List Entity :=
  [ .temperature (CocoroAirTemperatureSensor.init api),
    .humidity (CocoroAirHumiditySensor.init api),
    .water_tank (CocoroAirWaterTankSensor.init api),
    .pm25 (CocoroAirPM25Sensor.init api),
    .cleaned_air_volume (CocoroAirCleanedAirVolumeSensor.init api),
    .odor_level (CocoroAirOdorLevelSensor.init api),
    .dust_level (CocoroAirDustLevelSensor.init api),
    .cleanliness_level (CocoroAirCleanlinessLevelSensor.init api) ]

/-- Modelled from the spec: the host framework (absent from this
repository's sources) "invokes each entity's refresh independently";
one tick of that loop refreshes the entity at position `i` of the
platform's entity list, observing fetch outcome `fetch`, and touches no
other position. -/
def refreshAt (es : List Entity) (i : ℕ) (fetch : Except PyException SensorData) :
    List Entity :=
  match es[i]? with
  | none => es
  | some e => es.set i (e.async_update fetch)

/-- Concrete API client used to witness the theorems below. -/
def apiEx : ApiClient :=
  { device_id := "abc123", device_info := { payload := "dev" } }

/-- A concrete raised exception. -/
def pyEx : PyException := { msg := "connection reset" }

/-- A concrete snapshot in which every key is present with a value. -/
def snapshotEx : SensorData :=
  { temperature := some (some 25)
    humidity := some (some 45)
    water_tank := some (some true)
    pm25 := some (some 10)
    cleaned_air_volume := some (some 2)
    odor_level := some (some 99)
    dust_level := some (some 12)
    cleanliness_level := some (some 50) }

/-- A concrete snapshot missing the `temperature` key (its lookup
raises `KeyError`) and carrying `None` for `cleanliness_level`. -/
def snapshotNoTemp : SensorData :=
  { temperature := none
    humidity := some (some 45)
    water_tank := some none
    pm25 := some none
    cleaned_air_volume := some none
    odor_level := some none
    dust_level := some none
    cleanliness_level := some none }

/-- A concrete snapshot whose `dust_level` is 12.5, whose quotient by
25 is exactly one half. -/
def snapshotHalfA : SensorData :=
  { temperature := some none
    humidity := some none
    water_tank := some none
    pm25 := some none
    cleaned_air_volume := some none
    odor_level := some none
    dust_level := some (some (25/2))
    cleanliness_level := some none }

/-- A concrete snapshot whose `dust_level` is 37.5, whose quotient by
25 is exactly one and a half. -/
def snapshotHalfB : SensorData :=
  { temperature := some none
    humidity := some none
    water_tank := some none
    pm25 := some none
    cleaned_air_volume := some none
    odor_level := some none
    dust_level := some (some (75/2))
    cleanliness_level := some none }

/-- A temperature entity holding a previously observed value 21. -/
def staleTempEx : CocoroAirTemperatureSensor :=
  { api := apiEx
    unique_id := "abc123_temperature"
    device_info := apiEx.device_info
    native_value := some 21 }

/-- Left cancellation for string concatenation, used to separate the
per-entity unique-identifier suffixes. -/
theorem append_left_cancel_str {d s₁ s₂ : String} (h : d ++ s₁ = d ++ s₂) : s₁ = s₂ := by
  have h2 : (d ++ s₁).data = (d ++ s₂).data := by rw [h]
  rw [String.data_append, String.data_append] at h2
  exact String.ext (List.append_cancel_left h2)

/-- Claim C1: for every sensor entity, if the API's `update()` or
`get_sensor_data()` raises during a refresh cycle, the exception is
caught and suppressed — `async_update` is a total state transformer, so
nothing propagates to its caller — and the entity's whole state, in
particular its displayed value, is unchanged by the cycle. -/
theorem refresh_failure_suppressed_and_preserves_value :
    (∀ (s : CocoroAirTemperatureSensor) (e : PyException),
      s.async_update (Except.error e) = s) ∧
    (∀ (s : CocoroAirHumiditySensor) (e : PyException),
      s.async_update (Except.error e) = s) ∧
    (∀ (s : CocoroAirWaterTankSensor) (e : PyException),
      s.async_update (Except.error e) = s) ∧
    (∀ (s : CocoroAirPM25Sensor) (e : PyException),
      s.async_update (Except.error e) = s) ∧
    (∀ (s : CocoroAirCleanedAirVolumeSensor) (e : PyException),
      s.async_update (Except.error e) = s) ∧
    (∀ (s : CocoroAirOdorLevelSensor) (e : PyException),
      s.async_update (Except.error e) = s) ∧
    (∀ (s : CocoroAirDustLevelSensor) (e : PyException),
      s.async_update (Except.error e) = s) ∧
    (∀ (s : CocoroAirCleanlinessLevelSensor) (e : PyException),
      s.async_update (Except.error e) = s) :=
  ⟨fun _ _ => rfl, fun _ _ => rfl, fun _ _ => rfl, fun _ _ => rfl,
   fun _ _ => rfl, fun _ _ => rfl, fun _ _ => rfl, fun _ _ => rfl⟩

/-- Claim C2: on a successful refresh whose raw field value is
non-null, the odor-level entity displays `round(raw/33)`, the
dust-level and cleanliness-level entities display `round(raw/25)`, and
the five other entities display the raw value unchanged; in particular
`odor_level = 99` displays 3 and `dust_level = 12` displays 0. -/
theorem refresh_success_transform_policy :
    (∀ (s : CocoroAirOdorLevelSensor) (d : SensorData) (v : ℚ),
        d.odor_level = some (some v) →
        (s.async_update (Except.ok d)).native_value =
          some ((roundHalfEven (v / 33) : ℤ) : ℚ)) ∧
    (∀ (s : CocoroAirDustLevelSensor) (d : SensorData) (v : ℚ),
        d.dust_level = some (some v) →
        (s.async_update (Except.ok d)).native_value =
          some ((roundHalfEven (v / 25) : ℤ) : ℚ)) ∧
    (∀ (s : CocoroAirCleanlinessLevelSensor) (d : SensorData) (v : ℚ),
        d.cleanliness_level = some (some v) →
        (s.async_update (Except.ok d)).native_value =
          some ((roundHalfEven (v / 25) : ℤ) : ℚ)) ∧
    (∀ (s : CocoroAirTemperatureSensor) (d : SensorData) (v : Option ℚ),
        d.temperature = some v →
        (s.async_update (Except.ok d)).native_value = v) ∧
    (∀ (s : CocoroAirHumiditySensor) (d : SensorData) (v : Option ℚ),
        d.humidity = some v →
        (s.async_update (Except.ok d)).native_value = v) ∧
    (∀ (s : CocoroAirPM25Sensor) (d : SensorData) (v : Option ℚ),
        d.pm25 = some v →
        (s.async_update (Except.ok d)).native_value = v) ∧
    (∀ (s : CocoroAirCleanedAirVolumeSensor) (d : SensorData) (v : Option ℚ),
        d.cleaned_air_volume = some v →
        (s.async_update (Except.ok d)).native_value = v) ∧
    (∀ (s : CocoroAirWaterTankSensor) (d : SensorData) (v : Option Bool),
        d.water_tank = some v →
        (s.async_update (Except.ok d)).is_on = v) ∧
    (∀ (s : CocoroAirOdorLevelSensor) (d : SensorData),
        d.odor_level = some (some 99) →
        (s.async_update (Except.ok d)).native_value = some 3) ∧
    (∀ (s : CocoroAirDustLevelSensor) (d : SensorData),
        d.dust_level = some (some 12) →
        (s.async_update (Except.ok d)).native_value = some 0) := by
  refine ⟨?_, ?_, ?_, ?_, ?_, ?_, ?_, ?_, ?_, ?_⟩
  · intro s d v h; simp [CocoroAirOdorLevelSensor.async_update, h]
  · intro s d v h; simp [CocoroAirDustLevelSensor.async_update, h]
  · intro s d v h; simp [CocoroAirCleanlinessLevelSensor.async_update, h]
  · intro s d v h; simp [CocoroAirTemperatureSensor.async_update, h]
  · intro s d v h; simp [CocoroAirHumiditySensor.async_update, h]
  · intro s d v h; simp [CocoroAirPM25Sensor.async_update, h]
  · intro s d v h; simp [CocoroAirCleanedAirVolumeSensor.async_update, h]
  · intro s d v h; simp [CocoroAirWaterTankSensor.async_update, h]
  · intro s d h
    simp [CocoroAirOdorLevelSensor.async_update, h]
    norm_num [roundHalfEven]
  · intro s d h
    simp [CocoroAirDustLevelSensor.async_update, h]
    norm_num [roundHalfEven]

/-- Witness for C2: evaluating the transform policy on the concrete
snapshot (`odor_level = 99`, `dust_level = 12`, `temperature = 25`). -/
theorem refresh_success_transform_policy_witness :
    ((CocoroAirOdorLevelSensor.init apiEx).async_update
        (Except.ok snapshotEx)).native_value = some 3 ∧
    ((CocoroAirDustLevelSensor.init apiEx).async_update
        (Except.ok snapshotEx)).native_value = some 0 ∧
    ((CocoroAirTemperatureSensor.init apiEx).async_update
        (Except.ok snapshotEx)).native_value = some 25 :=
  ⟨refresh_success_transform_policy.2.2.2.2.2.2.2.2.1
      (CocoroAirOdorLevelSensor.init apiEx) snapshotEx rfl,
   refresh_success_transform_policy.2.2.2.2.2.2.2.2.2
      (CocoroAirDustLevelSensor.init apiEx) snapshotEx rfl,
   refresh_success_transform_policy.2.2.2.1
      (CocoroAirTemperatureSensor.init apiEx) snapshotEx (some 25) rfl⟩

/-- Claim C5: for every sensor entity, two consecutive successful
refreshes observing the same snapshot leave the entity in the same
state — in particular with the same displayed value — as one refresh. -/
theorem refresh_idempotent_on_equal_snapshot :
    ∀ d : SensorData,
    (∀ s : CocoroAirTemperatureSensor,
      (s.async_update (Except.ok d)).async_update (Except.ok d) =
        s.async_update (Except.ok d)) ∧
    (∀ s : CocoroAirHumiditySensor,
      (s.async_update (Except.ok d)).async_update (Except.ok d) =
        s.async_update (Except.ok d)) ∧
    (∀ s : CocoroAirWaterTankSensor,
      (s.async_update (Except.ok d)).async_update (Except.ok d) =
        s.async_update (Except.ok d)) ∧
    (∀ s : CocoroAirPM25Sensor,
      (s.async_update (Except.ok d)).async_update (Except.ok d) =
        s.async_update (Except.ok d)) ∧
    (∀ s : CocoroAirCleanedAirVolumeSensor,
      (s.async_update (Except.ok d)).async_update (Except.ok d) =
        s.async_update (Except.ok d)) ∧
    (∀ s : CocoroAirOdorLevelSensor,
      (s.async_update (Except.ok d)).async_update (Except.ok d) =
        s.async_update (Except.ok d)) ∧
    (∀ s : CocoroAirDustLevelSensor,
      (s.async_update (Except.ok d)).async_update (Except.ok d) =
        s.async_update (Except.ok d)) ∧
    (∀ s : CocoroAirCleanlinessLevelSensor,
      (s.async_update (Except.ok d)).async_update (Except.ok d) =
        s.async_update (Except.ok d)) := by
  intro d
  refine ⟨?_, ?_, ?_, ?_, ?_, ?_, ?_, ?_⟩
  · intro s; cases h : d.temperature <;>
      simp [CocoroAirTemperatureSensor.async_update, h]
  · intro s; cases h : d.humidity <;>
      simp [CocoroAirHumiditySensor.async_update, h]
  · intro s; cases h : d.water_tank <;>
      simp [CocoroAirWaterTankSensor.async_update, h]
  · intro s; cases h : d.pm25 <;>
      simp [CocoroAirPM25Sensor.async_update, h]
  · intro s; cases h : d.cleaned_air_volume <;>
      simp [CocoroAirCleanedAirVolumeSensor.async_update, h]
  · intro s
    cases h : d.odor_level with
    | none => simp [CocoroAirOdorLevelSensor.async_update, h]
    | some v => cases v <;> simp [CocoroAirOdorLevelSensor.async_update, h]
  · intro s
    cases h : d.dust_level with
    | none => simp [CocoroAirDustLevelSensor.async_update, h]
    | some v => cases v <;> simp [CocoroAirDustLevelSensor.async_update, h]
  · intro s
    cases h : d.cleanliness_level with
    | none => simp [CocoroAirCleanlinessLevelSensor.async_update, h]
    | some v => cases v <;> simp [CocoroAirCleanlinessLevelSensor.async_update, h]

/-- Claim C3, counterexample: the claim states that an absent raw field
also clears the displayed value to null, but on the concrete snapshot
whose `temperature` key is absent the entity holding 21 still displays
21 after the refresh — the `KeyError` raised by the lookup is caught by
the `except` branch, which retains the previous value. -/
theorem absent_field_retains_value_counterexample :
    snapshotNoTemp.temperature = none ∧
    (staleTempEx.async_update (Except.ok snapshotNoTemp)).native_value = some 21 ∧
    (staleTempEx.async_update (Except.ok snapshotNoTemp)).native_value ≠ none :=
  ⟨rfl, rfl, by simp [CocoroAirTemperatureSensor.async_update, snapshotNoTemp, staleTempEx]⟩

/-- Claim C3 as amended: for every sensor entity, if the raw field is
present but null in a successfully fetched snapshot, the displayed
value becomes null (not zero and not the previous value); if the raw
field is absent, the lookup raises `KeyError`, which the broad `except`
catches, leaving the entity — and therefore its previous displayed
value — unchanged. -/
theorem null_field_clears_absent_field_retains :
    (∀ (s : CocoroAirTemperatureSensor) (d : SensorData),
        d.temperature = some none →
        (s.async_update (Except.ok d)).native_value = none) ∧
    (∀ (s : CocoroAirHumiditySensor) (d : SensorData),
        d.humidity = some none →
        (s.async_update (Except.ok d)).native_value = none) ∧
    (∀ (s : CocoroAirWaterTankSensor) (d : SensorData),
        d.water_tank = some none →
        (s.async_update (Except.ok d)).is_on = none) ∧
    (∀ (s : CocoroAirPM25Sensor) (d : SensorData),
        d.pm25 = some none →
        (s.async_update (Except.ok d)).native_value = none) ∧
    (∀ (s : CocoroAirCleanedAirVolumeSensor) (d : SensorData),
        d.cleaned_air_volume = some none →
        (s.async_update (Except.ok d)).native_value = none) ∧
    (∀ (s : CocoroAirOdorLevelSensor) (d : SensorData),
        d.odor_level = some none →
        (s.async_update (Except.ok d)).native_value = none) ∧
    (∀ (s : CocoroAirDustLevelSensor) (d : SensorData),
        d.dust_level = some none →
        (s.async_update (Except.ok d)).native_value = none) ∧
    (∀ (s : CocoroAirCleanlinessLevelSensor) (d : SensorData),
        d.cleanliness_level = some none →
        (s.async_update (Except.ok d)).native_value = none) ∧
    (∀ (s : CocoroAirTemperatureSensor) (d : SensorData),
        d.temperature = none → s.async_update (Except.ok d) = s) ∧
    (∀ (s : CocoroAirHumiditySensor) (d : SensorData),
        d.humidity = none → s.async_update (Except.ok d) = s) ∧
    (∀ (s : CocoroAirWaterTankSensor) (d : SensorData),
        d.water_tank = none → s.async_update (Except.ok d) = s) ∧
    (∀ (s : CocoroAirPM25Sensor) (d : SensorData),
        d.pm25 = none → s.async_update (Except.ok d) = s) ∧
    (∀ (s : CocoroAirCleanedAirVolumeSensor) (d : SensorData),
        d.cleaned_air_volume = none → s.async_update (Except.ok d) = s) ∧
    (∀ (s : CocoroAirOdorLevelSensor) (d : SensorData),
        d.odor_level = none → s.async_update (Except.ok d) = s) ∧
    (∀ (s : CocoroAirDustLevelSensor) (d : SensorData),
        d.dust_level = none → s.async_update (Except.ok d) = s) ∧
    (∀ (s : CocoroAirCleanlinessLevelSensor) (d : SensorData),
        d.cleanliness_level = none → s.async_update (Except.ok d) = s) := by
  refine ⟨?_, ?_, ?_, ?_, ?_, ?_, ?_, ?_, ?_, ?_, ?_, ?_, ?_, ?_, ?_, ?_⟩ <;>
    intro s d h
  · simp [CocoroAirTemperatureSensor.async_update, h]
  · simp [CocoroAirHumiditySensor.async_update, h]
  · simp [CocoroAirWaterTankSensor.async_update, h]
  · simp [CocoroAirPM25Sensor.async_update, h]
  · simp [CocoroAirCleanedAirVolumeSensor.async_update, h]
  · simp [CocoroAirOdorLevelSensor.async_update, h]
  · simp [CocoroAirDustLevelSensor.async_update, h]
  · simp [CocoroAirCleanlinessLevelSensor.async_update, h]
  · simp [CocoroAirTemperatureSensor.async_update, h]
  · simp [CocoroAirHumiditySensor.async_update, h]
  · simp [CocoroAirWaterTankSensor.async_update, h]
  · simp [CocoroAirPM25Sensor.async_update, h]
  · simp [CocoroAirCleanedAirVolumeSensor.async_update, h]
  · simp [CocoroAirOdorLevelSensor.async_update, h]
  · simp [CocoroAirDustLevelSensor.async_update, h]
  · simp [CocoroAirCleanlinessLevelSensor.async_update, h]

/-- Witness for the amended C3: on the concrete snapshot whose
`cleanliness_level` is `None` the entity displays null, and the
temperature entity holding 21 is unchanged by the snapshot missing its
key. -/
theorem null_field_clears_absent_field_retains_witness :
    ((CocoroAirCleanlinessLevelSensor.init apiEx).async_update
        (Except.ok snapshotNoTemp)).native_value = none ∧
    staleTempEx.async_update (Except.ok snapshotNoTemp) = staleTempEx :=
  ⟨null_field_clears_absent_field_retains.2.2.2.2.2.2.2.1
      (CocoroAirCleanlinessLevelSensor.init apiEx) snapshotNoTemp rfl,
   null_field_clears_absent_field_retains.2.2.2.2.2.2.2.2.1
      staleTempEx snapshotNoTemp rfl⟩

/-- Claim C4: for every device, the eight constructed entities carry
unique identifiers equal to the device id concatenated with the fixed
per-entity suffixes, and the eight identifiers are pairwise distinct. -/
theorem unique_ids_derived_and_distinct :
    ∀ api : ApiClient,
      (setupEntities api).map Entity.unique_id =
        [ api.device_id ++ "_temperature",
          api.device_id ++ "_humidity",
          api.device_id ++ "_water_tank",
          api.device_id ++ "_pm25",
          api.device_id ++ "_cleaned_air_volume",
          api.device_id ++ "_odor_level",
          api.device_id ++ "_dust_level",
          api.device_id ++ "_cleanliness_level" ] ∧
      ((setupEntities api).map Entity.unique_id).Nodup := by
  intro api
  constructor
  · rfl
  · have hrepr : (setupEntities api).map Entity.unique_id =
        ([ "_temperature", "_humidity", "_water_tank", "_pm25",
           "_cleaned_air_volume", "_odor_level", "_dust_level",
           "_cleanliness_level" ].map (fun s => api.device_id ++ s)) := rfl
    rw [hrepr]
    exact List.Nodup.map (fun a b h => append_left_cancel_str h) (by decide)

/-- Claim C6: a refresh mutates only the entity's own displayed value:
for each of the eight classes every other instance attribute (the API
reference, the unique identifier, the device info) survives any fetch
outcome, and refreshing the entity at one position of the platform's
entity list leaves every other position untouched. -/
theorem refresh_frame_condition :
    (∀ (s : CocoroAirTemperatureSensor) (f : Except PyException SensorData),
        (s.async_update f).api = s.api ∧
        (s.async_update f).unique_id = s.unique_id ∧
        (s.async_update f).device_info = s.device_info) ∧
    (∀ (s : CocoroAirHumiditySensor) (f : Except PyException SensorData),
        (s.async_update f).api = s.api ∧
        (s.async_update f).unique_id = s.unique_id ∧
        (s.async_update f).device_info = s.device_info) ∧
    (∀ (s : CocoroAirWaterTankSensor) (f : Except PyException SensorData),
        (s.async_update f).api = s.api ∧
        (s.async_update f).unique_id = s.unique_id ∧
        (s.async_update f).device_info = s.device_info) ∧
    (∀ (s : CocoroAirPM25Sensor) (f : Except PyException SensorData),
        (s.async_update f).api = s.api ∧
        (s.async_update f).unique_id = s.unique_id ∧
        (s.async_update f).device_info = s.device_info) ∧
    (∀ (s : CocoroAirCleanedAirVolumeSensor) (f : Except PyException SensorData),
        (s.async_update f).api = s.api ∧
        (s.async_update f).unique_id = s.unique_id ∧
        (s.async_update f).device_info = s.device_info) ∧
    (∀ (s : CocoroAirOdorLevelSensor) (f : Except PyException SensorData),
        (s.async_update f).api = s.api ∧
        (s.async_update f).unique_id = s.unique_id ∧
        (s.async_update f).device_info = s.device_info) ∧
    (∀ (s : CocoroAirDustLevelSensor) (f : Except PyException SensorData),
        (s.async_update f).api = s.api ∧
        (s.async_update f).unique_id = s.unique_id ∧
        (s.async_update f).device_info = s.device_info) ∧
    (∀ (s : CocoroAirCleanlinessLevelSensor) (f : Except PyException SensorData),
        (s.async_update f).api = s.api ∧
        (s.async_update f).unique_id = s.unique_id ∧
        (s.async_update f).device_info = s.device_info) ∧
    (∀ (es : List Entity) (i : ℕ) (f : Except PyException SensorData) (j : ℕ),
        j ≠ i → (refreshAt es i f)[j]? = es[j]?) := by
  refine ⟨?_, ?_, ?_, ?_, ?_, ?_, ?_, ?_, ?_⟩
  · intro s f
    rcases f with e | d
    · exact ⟨rfl, rfl, rfl⟩
    · cases h : d.temperature <;> simp [CocoroAirTemperatureSensor.async_update, h]
  · intro s f
    rcases f with e | d
    · exact ⟨rfl, rfl, rfl⟩
    · cases h : d.humidity <;> simp [CocoroAirHumiditySensor.async_update, h]
  · intro s f
    rcases f with e | d
    · exact ⟨rfl, rfl, rfl⟩
    · cases h : d.water_tank <;> simp [CocoroAirWaterTankSensor.async_update, h]
  · intro s f
    rcases f with e | d
    · exact ⟨rfl, rfl, rfl⟩
    · cases h : d.pm25 <;> simp [CocoroAirPM25Sensor.async_update, h]
  · intro s f
    rcases f with e | d
    · exact ⟨rfl, rfl, rfl⟩
    · cases h : d.cleaned_air_volume <;>
        simp [CocoroAirCleanedAirVolumeSensor.async_update, h]
  · intro s f
    rcases f with e | d
    · exact ⟨rfl, rfl, rfl⟩
    · cases h : d.odor_level with
      | none => simp [CocoroAirOdorLevelSensor.async_update, h]
      | some v => cases v <;> simp [CocoroAirOdorLevelSensor.async_update, h]
  · intro s f
    rcases f with e | d
    · exact ⟨rfl, rfl, rfl⟩
    · cases h : d.dust_level with
      | none => simp [CocoroAirDustLevelSensor.async_update, h]
      | some v => cases v <;> simp [CocoroAirDustLevelSensor.async_update, h]
  · intro s f
    rcases f with e | d
    · exact ⟨rfl, rfl, rfl⟩
    · cases h : d.cleanliness_level with
      | none => simp [CocoroAirCleanlinessLevelSensor.async_update, h]
      | some v => cases v <;> simp [CocoroAirCleanlinessLevelSensor.async_update, h]
  · intro es i f j hij
    rw [refreshAt]
    cases h : es[i]? with
    | none => rfl
    | some e => exact List.getElem?_set_ne (fun he => hij he.symm)

/-- Witness for C6: refreshing position 0 of the concrete platform list
with a failing fetch leaves position 1 unchanged. -/
theorem refresh_frame_condition_witness :
    (refreshAt (setupEntities apiEx) 0 (Except.error pyEx))[1]? =
      (setupEntities apiEx)[1]? :=
  refresh_frame_condition.2.2.2.2.2.2.2.2
    (setupEntities apiEx) 0 (Except.error pyEx) 1 (by decide)

/-- Claim C7: the setup routine reads the API client from the host
registry under the integration domain and the entry id, constructs the
eight sensor entities — all holding that one client — and passes
exactly that list to the host's registration callback, unconditionally
(no error handling: the callback's result is always returned). -/
theorem setup_constructs_eight_entities_sharing_api :
    ∀ {α : Type} (hass : HassData) (entry : ConfigEntry) (f : List Entity → α),
      async_setup_entry hass entry f =
        f (setupEntities (hass.data DOMAIN entry.entry_id).cocoro_air_api) ∧
      (setupEntities (hass.data DOMAIN entry.entry_id).cocoro_air_api).length = 8 ∧
      (setupEntities (hass.data DOMAIN entry.entry_id).cocoro_air_api).map Entity.api =
        List.replicate 8 (hass.data DOMAIN entry.entry_id).cocoro_air_api := by
  intro α hass entry f
  exact ⟨rfl, rfl, rfl⟩

/-- Claim C8: immediately after construction, before any refresh, every
one of the eight entities displays null — the seven numeric sensors
initialise `_attr_native_value` to `None` and the water-tank binary
sensor initialises `_attr_is_on` to `None`. -/
theorem initial_displayed_value_null :
    ∀ api : ApiClient,
      (CocoroAirTemperatureSensor.init api).native_value = none ∧
      (CocoroAirHumiditySensor.init api).native_value = none ∧
      (CocoroAirWaterTankSensor.init api).is_on = none ∧
      (CocoroAirPM25Sensor.init api).native_value = none ∧
      (CocoroAirCleanedAirVolumeSensor.init api).native_value = none ∧
      (CocoroAirOdorLevelSensor.init api).native_value = none ∧
      (CocoroAirDustLevelSensor.init api).native_value = none ∧
      (CocoroAirCleanlinessLevelSensor.init api).native_value = none ∧
      (setupEntities api).map Entity.displayed = List.replicate 8 none :=
  fun _ => ⟨rfl, rfl, rfl, rfl, rfl, rfl, rfl, rfl, rfl⟩

/-- Claim C9: the scaled entities round halves to the even integer, as
Python's builtin `round` does: whenever a quotient lies exactly halfway
between two integers the rounded result is even, and concretely
`dust_level = 12.5` displays `round(0.5) = 0`, `dust_level = 37.5`
displays `round(1.5) = 2`, and `odor_level = 49.5` displays
`round(1.5) = 2` — halves are not always rounded upward. -/
theorem scaled_rounding_half_to_even :
    (∀ q : ℚ, q - (⌊q⌋ : ℚ) = 1/2 → 2 ∣ roundHalfEven q) ∧
    (∀ (s : CocoroAirDustLevelSensor) (d : SensorData),
        d.dust_level = some (some (25/2)) →
        (s.async_update (Except.ok d)).native_value = some 0) ∧
    (∀ (s : CocoroAirDustLevelSensor) (d : SensorData),
        d.dust_level = some (some (75/2)) →
        (s.async_update (Except.ok d)).native_value = some 2) ∧
    (∀ (s : CocoroAirOdorLevelSensor) (d : SensorData),
        d.odor_level = some (some (99/2)) →
        (s.async_update (Except.ok d)).native_value = some 2) := by
  refine ⟨?_, ?_, ?_, ?_⟩
  · intro q h
    unfold roundHalfEven
    rw [h]
    norm_num
    by_cases hp : 2 ∣ ⌊q⌋
    · rw [if_pos hp]; omega
    · rw [if_neg hp]; omega
  · intro s d h
    simp [CocoroAirDustLevelSensor.async_update, h]
    norm_num [roundHalfEven]
  · intro s d h
    simp [CocoroAirDustLevelSensor.async_update, h]
    norm_num [roundHalfEven]
  · intro s d h
    simp [CocoroAirOdorLevelSensor.async_update, h]
    norm_num [roundHalfEven]

/-- Witness for C9: the concrete quotient 5/2 has fractional part one
half and rounds to an even integer, and the two concrete half-way dust
snapshots display 0 and 2. -/
theorem scaled_rounding_half_to_even_witness :
    ((5 : ℚ)/2 - (⌊(5 : ℚ)/2⌋ : ℚ) = 1/2 ∧ 2 ∣ roundHalfEven (5/2)) ∧
    ((CocoroAirDustLevelSensor.init apiEx).async_update
        (Except.ok snapshotHalfA)).native_value = some 0 ∧
    ((CocoroAirDustLevelSensor.init apiEx).async_update
        (Except.ok snapshotHalfB)).native_value = some 2 :=
  ⟨⟨by norm_num, scaled_rounding_half_to_even.1 (5/2) (by norm_num)⟩,
   scaled_rounding_half_to_even.2.1 (CocoroAirDustLevelSensor.init apiEx)
     snapshotHalfA rfl,
   scaled_rounding_half_to_even.2.2.1 (CocoroAirDustLevelSensor.init apiEx)
     snapshotHalfB rfl⟩

/-- Claim C10: after a refresh that completes without an exception —
the fetch succeeded and the entity's key is present in the mapping —
the displayed value is determined solely by the snapshot: two instances
of the same class holding any prior values end with equal displayed
values when refreshed on the same snapshot. -/
theorem refresh_value_determined_by_snapshot :
    ∀ d : SensorData,
    (∀ (s₁ s₂ : CocoroAirTemperatureSensor) (v : Option ℚ),
        d.temperature = some v →
        (s₁.async_update (Except.ok d)).native_value =
          (s₂.async_update (Except.ok d)).native_value) ∧
    (∀ (s₁ s₂ : CocoroAirHumiditySensor) (v : Option ℚ),
        d.humidity = some v →
        (s₁.async_update (Except.ok d)).native_value =
          (s₂.async_update (Except.ok d)).native_value) ∧
    (∀ (s₁ s₂ : CocoroAirWaterTankSensor) (v : Option Bool),
        d.water_tank = some v →
        (s₁.async_update (Except.ok d)).is_on =
          (s₂.async_update (Except.ok d)).is_on) ∧
    (∀ (s₁ s₂ : CocoroAirPM25Sensor) (v : Option ℚ),
        d.pm25 = some v →
        (s₁.async_update (Except.ok d)).native_value =
          (s₂.async_update (Except.ok d)).native_value) ∧
    (∀ (s₁ s₂ : CocoroAirCleanedAirVolumeSensor) (v : Option ℚ),
        d.cleaned_air_volume = some v →
        (s₁.async_update (Except.ok d)).native_value =
          (s₂.async_update (Except.ok d)).native_value) ∧
    (∀ (s₁ s₂ : CocoroAirOdorLevelSensor) (v : Option ℚ),
        d.odor_level = some v →
        (s₁.async_update (Except.ok d)).native_value =
          (s₂.async_update (Except.ok d)).native_value) ∧
    (∀ (s₁ s₂ : CocoroAirDustLevelSensor) (v : Option ℚ),
        d.dust_level = some v →
        (s₁.async_update (Except.ok d)).native_value =
          (s₂.async_update (Except.ok d)).native_value) ∧
    (∀ (s₁ s₂ : CocoroAirCleanlinessLevelSensor) (v : Option ℚ),
        d.cleanliness_level = some v →
        (s₁.async_update (Except.ok d)).native_value =
          (s₂.async_update (Except.ok d)).native_value) := by
  intro d
  refine ⟨?_, ?_, ?_, ?_, ?_, ?_, ?_, ?_⟩ <;> intro s₁ s₂ v h
  · simp [CocoroAirTemperatureSensor.async_update, h]
  · simp [CocoroAirHumiditySensor.async_update, h]
  · simp [CocoroAirWaterTankSensor.async_update, h]
  · simp [CocoroAirPM25Sensor.async_update, h]
  · simp [CocoroAirCleanedAirVolumeSensor.async_update, h]
  · cases v <;> simp [CocoroAirOdorLevelSensor.async_update, h]
  · cases v <;> simp [CocoroAirDustLevelSensor.async_update, h]
  · cases v <;> simp [CocoroAirCleanlinessLevelSensor.async_update, h]

/-- Witness for C10: a stale temperature entity holding 21 and a fresh
one holding null end with the same displayed value after refreshing on
the same concrete snapshot. -/
theorem refresh_value_determined_by_snapshot_witness :
    (staleTempEx.async_update (Except.ok snapshotEx)).native_value =
      ((CocoroAirTemperatureSensor.init apiEx).async_update
        (Except.ok snapshotEx)).native_value :=
  (refresh_value_determined_by_snapshot snapshotEx).1 staleTempEx
    (CocoroAirTemperatureSensor.init apiEx) (some 25) rfl

end CocoroAir
